import Mathlib

/-!
Shallow embedding of `src/stream.js` from `ealmloff/web-transcribe`.

The file models two pieces of the source:

* the `AudioCaptureProcessor` worklet embedded as a template string in
  `streamMicrophone` — its constructor state and its `process` method,
  including the exact semantics of JavaScript `Array.prototype.slice`
  (`buffer.slice(0, bufferSize)` / `buffer.slice(bufferSize)`);
* the surrounding `streamMicrophone` function — option resolution
  (`options.bufferSize || 4096`, `options.fromDisplay || false`), its
  straight-line sequence of platform calls (media request, audio context,
  blob URL, `addModule`, node construction, `createMediaStreamSource`,
  graph connection), each of which can reject/throw, modelled as a trace
  of effects plus an `Except` result over an environment of platform
  outcomes; and the returned `stop` closure, modelled as its effect trace.
-/

namespace WebTranscribe

universe u

variable {α : Type u}

/-- Index resolution of JavaScript `Array.prototype.slice`: a negative index
counts from the end of the array, and the result is clamped to `[0, len]`. -/
def jsIndex (len : Nat) (i : Int) : Nat :=
  if i < 0 then ((len : Int) + i).toNat else min i.toNat len

/-- JavaScript `arr.slice(start, fin)` (two-argument form): the elements from
the resolved start index (inclusive) to the resolved end index (exclusive). -/
def jsSlice (l : List α) (start fin : Int) : List α :=
  (l.take (jsIndex l.length fin)).drop (jsIndex l.length start)

/-- JavaScript `arr.slice(start)` (one-argument form): the elements from the
resolved start index to the end of the array. -/
def jsSliceFrom (l : List α) (start : Int) : List α :=
  l.drop (jsIndex l.length start)

/-- The message posted from the worklet on each emission:
`{ samples: this.buffer.slice(0, this.bufferSize), sampleRate: this.sampleRate }`.
Sample values are abstract (`α`); the code never inspects them. -/
structure AudioFrame (α : Type u) where
  samples : List α
  sampleRate : Nat
deriving DecidableEq, Repr

/-- State of one `AudioCaptureProcessor` instance: `this.bufferSize` (a raw
JavaScript number taken from `options.processorOptions.bufferSize`, modelled
as `Int`), `this.sampleRate` (interpolated from the audio context), and
`this.buffer` (the overflow buffer, initially `[]`). -/
structure ProcState (α : Type u) where
  bufferSize : Int
  sampleRate : Nat
  buffer : List α
deriving DecidableEq, Repr

/-- The processor state built by the `AudioCaptureProcessor` constructor for a
node created with `processorOptions: { bufferSize }` in a context whose sample
rate is `sampleRate`: the overflow buffer starts empty. -/
def initState (α : Type u) (bufferSize : Int) (sampleRate : Nat) : ProcState α :=
  ⟨bufferSize, sampleRate, []⟩

/-- `AudioCaptureProcessor.process` for one render call. `input` is
`inputs[0]`, the list of channels of the first input; `input[0]` (channel 0)
carries the samples. The body appends the samples
(`this.buffer.push(...samples)`), then — `if`, not `while` — when
`this.buffer.length >= this.bufferSize` it posts one message with the first
`bufferSize` samples and keeps `this.buffer.slice(this.bufferSize)`.
Returns the new state and the list of messages posted (zero or one). -/
def process (st : ProcState α) (input : List (List α)) :
    ProcState α × List (AudioFrame α) :=
  match input with
  | [] => (st, [])
  | samples :: _ =>
      let buffer := st.buffer ++ samples
      if st.bufferSize ≤ (buffer.length : Int) then
        ({ st with buffer := jsSliceFrom buffer st.bufferSize },
          [⟨jsSlice buffer 0 st.bufferSize, st.sampleRate⟩])
      else
        ({ st with buffer := buffer }, [])

/-- Feed a sequence of mono blocks to the processor, one `process` call per
block, each block arriving as channel 0 of the first input. Returns the final
state together with all messages posted, in emission order. -/
def runBlocks (st : ProcState α) : List (List α) → ProcState α × List (AudioFrame α)
  | [] => (st, [])
  | b :: bs =>
      ((runBlocks (process st [b]).1 bs).1,
        (process st [b]).2 ++ (runBlocks (process st [b]).1 bs).2)

/-- Concatenation of the samples of a list of frames, in emission order. -/
def emittedSamples (fs : List (AudioFrame α)) : List α :=
  (fs.map AudioFrame.samples).flatten

/-- The argument object built by the `workletNode.port.onmessage` handler and
passed to the caller's callback. -/
structure SinkCall (α : Type u) where
  samples : List α
  sampleRate : Nat
  bufferLength : Nat
deriving DecidableEq, Repr

/-- The `onmessage` handler: wraps the posted message, adding
`bufferLength: event.data.samples.length`. -/
def sinkCall (f : AudioFrame α) : SinkCall α :=
  ⟨f.samples, f.sampleRate, f.samples.length⟩

/-- `const bufferSize = options.bufferSize || 4096`. For a numeric option the
only falsy integer value is `0` (and an absent property): both fall back to
the default `4096`; every other value is used unchanged. -/
def resolveBufferSize (bufferSize : Option Int) : Int :=
  match bufferSize with
  | none => 4096
  | some v => if v = 0 then 4096 else v

/-- `const from_display = options.fromDisplay || false`. -/
def resolveFromDisplay (fromDisplay : Option Bool) : Bool :=
  match fromDisplay with
  | none => false
  | some b => b

/-- The `options` argument of `streamMicrophone`. -/
structure Options where
  bufferSize : Option Int
  fromDisplay : Option Bool
deriving DecidableEq, Repr

/-- Observable side effects of `streamMicrophone` and of the `stop` closure it
returns, in program order. -/
inductive Effect : Type where
  | requestUserMedia
  | requestDisplayMedia
  | streamAcquired
  | contextCreated
  | createBlobUrl
  | moduleAdded
  | nodeCreated
  | handlerInstalled
  | sourceCreated
  | connectSourceToWorklet
  | connectWorkletToDestination
  | disconnectWorklet
  | disconnectSource
  | closeContext
  | revokeBlobUrl
  | stopTrack (i : Nat)
deriving DecidableEq, Repr

/-- Outcomes of the platform calls `streamMicrophone` awaits or constructs:
whether each resolves/succeeds, the context's sample rate, and the tracks of
the granted stream (total count, and how many of them are audio tracks —
the code never reads either, but the environment has them). -/
structure PlatformEnv where
  mediaOk : Bool
  audioTracks : Nat
  trackCount : Nat
  sampleRate : Nat
  contextOk : Bool
  addModuleOk : Bool
  nodeOk : Bool
  sourceOk : Bool
deriving DecidableEq, Repr

/-- Which platform call made `streamMicrophone`'s promise reject (the code has
no try/catch and no error mapping: the platform exception propagates). -/
inductive StartFailure : Type where
  | mediaError
  | contextError
  | addModuleError
  | nodeError
  | sourceError
deriving DecidableEq, Repr

/-- A successfully started session: the configured buffer size handed to the
worklet node's `processorOptions`, the context sample rate, and the track
count of the stream the `stop` closure captures. -/
structure Session where
  bufferSize : Int
  sampleRate : Nat
  trackCount : Nat
deriving DecidableEq, Repr

/-- `streamMicrophone(callback, options)` as a pure function of the platform
environment: the trace of effects performed, and either the session the
returned `stop` closure closes over, or the failure that rejected the
promise. Each platform call's failure aborts the remaining steps with no
cleanup (the source has no try/catch). -/
def streamMicrophone (env : PlatformEnv) (opts : Options) :
    List Effect × Except StartFailure Session :=
  let bufferSize := resolveBufferSize opts.bufferSize
  let fromDisplay := resolveFromDisplay opts.fromDisplay
  let req := if fromDisplay then Effect.requestDisplayMedia else Effect.requestUserMedia
  if env.mediaOk = false then
    ([req], .error .mediaError)
  else if env.contextOk = false then
    ([req, .streamAcquired], .error .contextError)
  else if env.addModuleOk = false then
    ([req, .streamAcquired, .contextCreated, .createBlobUrl], .error .addModuleError)
  else if env.nodeOk = false then
    ([req, .streamAcquired, .contextCreated, .createBlobUrl, .moduleAdded],
      .error .nodeError)
  else if env.sourceOk = false then
    ([req, .streamAcquired, .contextCreated, .createBlobUrl, .moduleAdded,
      .nodeCreated, .handlerInstalled], .error .sourceError)
  else
    ([req, .streamAcquired, .contextCreated, .createBlobUrl, .moduleAdded,
      .nodeCreated, .handlerInstalled, .sourceCreated, .connectSourceToWorklet,
      .connectWorkletToDestination],
      .ok ⟨bufferSize, env.sampleRate, env.trackCount⟩)

/-- The `stop` closure returned by `streamMicrophone`:
`workletNode.disconnect(); source.disconnect(); audioContext.close();
URL.revokeObjectURL(workletUrl); stream.getTracks().forEach(track => track.stop())`.
(The `if (workletNode)` / `if (source)` / `if (audioContext)` guards are
always truthy: all three are assigned before the closure is returned.) -/
def stopTrace (s : Session) : List Effect :=
  [.disconnectWorklet, .disconnectSource, .closeContext, .revokeBlobUrl]
    ++ (List.range s.trackCount).map .stopTrack

/-! ## Helper lemmas about the slice semantics and the accumulator -/

theorem jsIndex_zero (len : Nat) : jsIndex len 0 = 0 := by
  simp [jsIndex]

/-- `arr.slice(0, b)` and `arr.slice(b)` split the array: their concatenation
is the whole array, for every `b`, including negative and out-of-range ones
(both calls resolve `b` to the same clamped index). -/
theorem jsSlice_zero_append (l : List α) (b : Int) :
    jsSlice l 0 b ++ jsSliceFrom l b = l := by
  simp [jsSlice, jsSliceFrom, jsIndex_zero, List.take_append_drop]

/-- With `0 ≤ b ≤ len`, `arr.slice(0, b)` has exactly `b` elements. -/
theorem length_jsSlice_zero (l : List α) (b : Int) (h0 : 0 ≤ b)
    (hle : b ≤ (l.length : Int)) : (jsSlice l 0 b).length = b.toNat := by
  have hb : ¬ b < 0 := not_lt.mpr h0
  have htn : b.toNat ≤ l.length := by
    omega
  simp [jsSlice, jsIndex_zero, jsIndex, hb, Nat.min_eq_left htn, htn]

theorem process_bufferSize (st : ProcState α) (input : List (List α)) :
    (process st input).1.bufferSize = st.bufferSize := by
  cases input with
  | nil => rfl
  | cons s t =>
      simp only [process]
      split <;> rfl

theorem process_sampleRate (st : ProcState α) (input : List (List α)) :
    (process st input).1.sampleRate = st.sampleRate := by
  cases input with
  | nil => rfl
  | cons s t =>
      simp only [process]
      split <;> rfl

theorem emittedSamples_append (xs ys : List (AudioFrame α)) :
    emittedSamples (xs ++ ys) = emittedSamples xs ++ emittedSamples ys := by
  simp [emittedSamples]

/-- With `0 ≤ b ≤ len`, `arr.slice(0, b)` is `take b`. -/
theorem jsSlice_zero_eq_take (l : List α) (b : Int) (h0 : 0 ≤ b)
    (hle : b ≤ (l.length : Int)) : jsSlice l 0 b = l.take b.toNat := by
  have hb : ¬ b < 0 := not_lt.mpr h0
  have htn : b.toNat ≤ l.length := by omega
  simp [jsSlice, jsIndex_zero, jsIndex, hb, Nat.min_eq_left htn]

/-- With `0 ≤ b ≤ len`, `arr.slice(b)` is `drop b`. -/
theorem jsSliceFrom_eq_drop (l : List α) (b : Int) (h0 : 0 ≤ b)
    (hle : b ≤ (l.length : Int)) : jsSliceFrom l b = l.drop b.toNat := by
  have hb : ¬ b < 0 := not_lt.mpr h0
  have htn : b.toNat ≤ l.length := by omega
  simp [jsSliceFrom, jsIndex, hb, Nat.min_eq_left htn]

/-- One `process` call conserves samples: what is emitted followed by what
stays in the buffer is exactly the old buffer followed by the incoming
channel-0 block. Holds for every `bufferSize`, positive or not. -/
theorem process_conservation (st : ProcState α) (b : List α) (t : List (List α)) :
    emittedSamples (process st (b :: t)).2 ++ (process st (b :: t)).1.buffer
      = st.buffer ++ b := by
  simp only [process]
  split
  · simp [emittedSamples, jsSlice_zero_append]
  · simp [emittedSamples]

/-- Sample conservation over a whole run: emitted samples followed by the
final buffer reproduce the initial buffer followed by all input samples. -/
theorem runBlocks_conservation (bs : List (List α)) :
    ∀ st : ProcState α,
      emittedSamples (runBlocks st bs).2 ++ (runBlocks st bs).1.buffer
        = st.buffer ++ bs.flatten := by
  induction bs with
  | nil => intro st; simp [runBlocks, emittedSamples]
  | cons b bs ih =>
      intro st
      simp only [runBlocks, List.flatten_cons]
      rw [emittedSamples_append, List.append_assoc, ih,
        ← List.append_assoc, process_conservation, List.append_assoc]

/-- Every frame emitted by one `process` call has exactly `bufferSize`
samples, provided `bufferSize` is nonnegative. -/
theorem process_frame_length (st : ProcState α) (input : List (List α))
    (h : 0 ≤ st.bufferSize) :
    ∀ f ∈ (process st input).2, (f.samples.length : Int) = st.bufferSize := by
  cases input with
  | nil => simp [process]
  | cons samples t =>
      simp only [process]
      split
      · rename_i hcond
        intro f hf
        simp only [List.mem_singleton] at hf
        subst hf
        simp [length_jsSlice_zero _ _ h hcond, Int.toNat_of_nonneg h]
      · simp

/-- Every frame emitted over a whole run has exactly `bufferSize` samples,
provided `bufferSize` is nonnegative. -/
theorem runBlocks_frame_length (bs : List (List α)) :
    ∀ st : ProcState α, 0 ≤ st.bufferSize →
      ∀ f ∈ (runBlocks st bs).2, (f.samples.length : Int) = st.bufferSize := by
  induction bs with
  | nil => intro st _ f hf; simp [runBlocks] at hf
  | cons b bs ih =>
      intro st h f hf
      simp only [runBlocks, List.mem_append] at hf
      rcases hf with hf | hf
      · exact process_frame_length st [b] h f hf
      · have hbs : (process st [b]).1.bufferSize = st.bufferSize :=
          process_bufferSize st [b]
        have := ih (process st [b]).1 (hbs ▸ h) f hf
        rw [hbs] at this
        exact this

/-! ## Claim theorems -/

/-- C1, counterexample: with `frameSize = 1` and an empty buffer, a single
push of the 3-sample block `[7, 8, 9]` emits only ONE frame (not three) and
returns with 2 samples — not strictly fewer than `frameSize` — still in the
overflow buffer: the drain is an `if`, not a `while`. -/
theorem single_push_drains_counterexample :
    (process (initState Nat 1 1) [[7, 8, 9]]).2.length = 1 ∧
    (process (initState Nat 1 1) [[7, 8, 9]]).1.buffer = [8, 9] ∧
    ¬ (((process (initState Nat 1 1) [[7, 8, 9]]).1.buffer.length : Int) <
        (initState Nat 1 1).bufferSize) := by
  decide

/-- C1, amended: a single push emits AT MOST ONE frame. If the old buffer plus
the incoming block reaches `frameSize`, exactly one frame holding the first
`frameSize` samples is emitted and the rest — possibly still `≥ frameSize`
samples — stays in the buffer; otherwise nothing is emitted and the block is
appended. -/
theorem single_push_emits_at_most_one (st : ProcState α) (b : List α)
    (h : 0 ≤ st.bufferSize) :
    (process st [b]).2.length ≤ 1 ∧
    (st.bufferSize ≤ ((st.buffer.length + b.length : Nat) : Int) →
      (process st [b]).2 =
        [⟨(st.buffer ++ b).take st.bufferSize.toNat, st.sampleRate⟩] ∧
      (process st [b]).1.buffer = (st.buffer ++ b).drop st.bufferSize.toNat) ∧
    (((st.buffer.length + b.length : Nat) : Int) < st.bufferSize →
      (process st [b]).2 = [] ∧ (process st [b]).1.buffer = st.buffer ++ b) := by
  have hlen : ((st.buffer ++ b).length : Int) =
      ((st.buffer.length + b.length : Nat) : Int) := by
    simp
  simp only [process]
  split
  · rename_i hcond
    refine ⟨by simp, fun _ => ?_, fun hlt => ?_⟩
    · rw [hlen] at hcond
      constructor
      · rw [jsSlice_zero_eq_take _ _ h (by rw [hlen]; exact hcond)]
      · simp only
        rw [jsSliceFrom_eq_drop _ _ h (by rw [hlen]; exact hcond)]
    · rw [hlen] at hcond
      omega
  · rename_i hcond
    rw [hlen] at hcond
    refine ⟨by simp, fun hge => ?_, fun _ => ⟨rfl, rfl⟩⟩
    omega

theorem single_push_emits_at_most_one_witness :
    (process (⟨2, 1, [4]⟩ : ProcState Nat) [[5, 6]]).2.length ≤ 1 ∧
    ((2 : Int) ≤ (((3 : Nat) : Int)) →
      (process (⟨2, 1, [4]⟩ : ProcState Nat) [[5, 6]]).2 =
        [⟨([4] ++ [5, 6]).take (2 : Int).toNat, 1⟩] ∧
      (process (⟨2, 1, [4]⟩ : ProcState Nat) [[5, 6]]).1.buffer =
        ([4] ++ [5, 6]).drop (2 : Int).toNat) ∧
    ((((3 : Nat) : Int)) < 2 →
      (process (⟨2, 1, [4]⟩ : ProcState Nat) [[5, 6]]).2 = [] ∧
      (process (⟨2, 1, [4]⟩ : ProcState Nat) [[5, 6]]).1.buffer = [4] ++ [5, 6]) :=
  single_push_emits_at_most_one (⟨2, 1, [4]⟩ : ProcState Nat) [5, 6] (by decide)

/-- C2, counterexample: with `frameSize = 2`, the block `[1, 2, 3, 4, 5]` of
length `2.5 * frameSize` against an empty buffer emits 1 frame, not 2, and
leaves 3 samples (`1.5 * frameSize`), not 1 (`0.5 * frameSize`), pending. -/
theorem oversized_block_split_counterexample :
    (process (initState Nat 2 1) [[1, 2, 3, 4, 5]]).2.length = 1 ∧
    (process (initState Nat 2 1) [[1, 2, 3, 4, 5]]).1.buffer = [3, 4, 5] ∧
    ¬ ((process (initState Nat 2 1) [[1, 2, 3, 4, 5]]).2.length = 2 ∧
        (process (initState Nat 2 1) [[1, 2, 3, 4, 5]]).1.buffer.length = 1) := by
  decide

/-- C2, amended: for any even `frameSize = 2 * k`, a single block of length
`2.5 * frameSize = 5 * k` against an empty buffer emits exactly ONE frame —
the first `frameSize` samples — and leaves `1.5 * frameSize = 3 * k` samples
pending. -/
theorem oversized_block_split (k sr : Nat) (b : List α)
    (hb : b.length = 5 * k) :
    (process (initState α (2 * (k : Int)) sr) [b]).2.length = 1 ∧
    emittedSamples (process (initState α (2 * (k : Int)) sr) [b]).2 =
      b.take (2 * k) ∧
    (process (initState α (2 * (k : Int)) sr) [b]).1.buffer.length = 3 * k := by
  have h0 : (0 : Int) ≤ 2 * (k : Int) := by positivity
  have hle : 2 * (k : Int) ≤ (b.length : Int) := by
    rw [hb]; push_cast; omega
  have htn : (2 * (k : Int)).toNat = 2 * k := by omega
  simp only [process, initState, List.nil_append]
  rw [if_pos hle]
  refine ⟨rfl, ?_, ?_⟩
  · simp [emittedSamples, jsSlice_zero_eq_take _ _ h0 hle, htn]
  · simp only
    rw [jsSliceFrom_eq_drop _ _ h0 hle, List.length_drop, hb, htn]
    omega

theorem oversized_block_split_witness :
    ([1, 2, 3, 4, 5] : List Nat).length = 5 * 1 ∧
    ((process (initState Nat (2 * ((1 : Nat) : Int)) 44100)
        [[1, 2, 3, 4, 5]]).2.length = 1 ∧
      emittedSamples (process (initState Nat (2 * ((1 : Nat) : Int)) 44100)
        [[1, 2, 3, 4, 5]]).2 = ([1, 2, 3, 4, 5] : List Nat).take (2 * 1) ∧
      (process (initState Nat (2 * ((1 : Nat) : Int)) 44100)
        [[1, 2, 3, 4, 5]]).1.buffer.length = 3 * 1) :=
  ⟨by decide, oversized_block_split 1 44100 [1, 2, 3, 4, 5] (by decide)⟩

/-- C3: over any sequence of blocks fed to a fresh processor, the emitted
samples followed by the final buffer reproduce the input exactly, so the
concatenation of all emitted frames, in emission order, is a prefix of the
concatenation of all input blocks, in arrival order: no sample is lost,
duplicated, or reordered. -/
theorem frames_are_prefix_of_input (fs : Int) (sr : Nat) (bs : List (List α)) :
    emittedSamples (runBlocks (initState α fs sr) bs).2 ++
        (runBlocks (initState α fs sr) bs).1.buffer = bs.flatten ∧
    List.IsPrefix (emittedSamples (runBlocks (initState α fs sr) bs).2)
      bs.flatten := by
  have h := runBlocks_conservation bs (initState α fs sr)
  simp only [initState, List.nil_append] at h
  exact ⟨h, ⟨_, h⟩⟩

/-- C4: with a nonnegative configured frame size, every frame emitted over any
run has exactly `frameSize` samples, and the `bufferLength` field the
`onmessage` handler passes to the sink equals `frameSize` as well. -/
theorem frame_size_invariant (fs : Int) (sr : Nat) (bs : List (List α))
    (hfs : 0 ≤ fs) :
    ∀ f ∈ (runBlocks (initState α fs sr) bs).2,
      (f.samples.length : Int) = fs ∧ (((sinkCall f).bufferLength : Nat) : Int) = fs := by
  intro f hf
  have h := runBlocks_frame_length bs (initState α fs sr) hfs f hf
  exact ⟨h, h⟩

theorem frame_size_invariant_witness :
    (((⟨[10, 20], 1⟩ : AudioFrame Nat).samples.length : Int) = 2 ∧
      (((sinkCall (⟨[10, 20], 1⟩ : AudioFrame Nat)).bufferLength : Nat) : Int) = 2) :=
  frame_size_invariant 2 1 [[10, 20, 30]] (by decide) ⟨[10, 20], 1⟩ (by decide)

/-- C5, counterexample: the state with `frameSize = 1` and one pending sample
is reachable (push `[9, 5]` into a fresh processor), and pushing an EMPTY
block in that state is not a no-op: one frame is emitted and the buffer
changes from `[5]` to `[]`. -/
theorem empty_block_noop_counterexample :
    (process (initState Nat 1 1) [[9, 5]]).1 = ⟨1, 1, [5]⟩ ∧
    (process (⟨1, 1, [5]⟩ : ProcState Nat) [[]]).2.length = 1 ∧
    (process (⟨1, 1, [5]⟩ : ProcState Nat) [[]]).1.buffer = [] := by
  decide

/-- C5, amended: an input with no channels is always a no-op; an empty
(zero-length) block appends nothing and is a no-op exactly when the buffer
holds fewer than `frameSize` samples — when the buffer already holds at least
`frameSize` samples (reachable after an oversized block), pushing an empty
block still emits one frame and shrinks the buffer. -/
theorem empty_block_noop (st : ProcState α) :
    process st [] = (st, []) ∧
    ((st.buffer.length : Int) < st.bufferSize →
      process st [([] : List α)] = (st, [])) ∧
    (st.bufferSize ≤ (st.buffer.length : Int) →
      (process st [([] : List α)]).2 =
        [⟨jsSlice st.buffer 0 st.bufferSize, st.sampleRate⟩] ∧
      (process st [([] : List α)]).1.buffer = jsSliceFrom st.buffer st.bufferSize) := by
  refine ⟨rfl, fun hlt => ?_, fun hge => ?_⟩
  · simp only [process, List.append_nil]
    rw [if_neg (not_le.mpr hlt)]
  · simp only [process, List.append_nil]
    rw [if_pos hge]
    exact ⟨rfl, rfl⟩

theorem empty_block_noop_witness :
    (process (⟨2, 1, [5]⟩ : ProcState Nat) [] = (⟨2, 1, [5]⟩, []) ∧
      process (⟨2, 1, [5]⟩ : ProcState Nat) [([] : List Nat)] = (⟨2, 1, [5]⟩, [])) :=
  ⟨(empty_block_noop (⟨2, 1, [5]⟩ : ProcState Nat)).1,
    (empty_block_noop (⟨2, 1, [5]⟩ : ProcState Nat)).2.1 (by decide)⟩

/-- C6, counterexample: `streamMicrophone` performs no `frameSize` validation.
With `options.bufferSize = -7` the start succeeds — no configuration error —
and `-7` is the buffer size handed to the worklet's `processorOptions`, so it
reaches the accumulator as its `bufferSize`. -/
theorem frameSize_validation_counterexample :
    resolveBufferSize (some (-7)) = -7 ∧
    ((-7 : Int) ≤ 0) ∧
    (streamMicrophone ⟨true, 1, 1, 48000, true, true, true, true⟩
        ⟨some (-7), none⟩).2 = Except.ok ⟨-7, 48000, 1⟩ ∧
    (initState Nat (-7) 48000).bufferSize = -7 :=
  ⟨rfl, by decide, rfl, rfl⟩

/-- C6, amended: there is no `frameSize` validation. A `frameSize` of `0` is
falsy and silently replaced by the default `4096`, so `0` never reaches the
accumulator; a NEGATIVE `frameSize` is not rejected: it is used unchanged,
and when every platform call succeeds, session start succeeds with the
negative value configured. -/
theorem no_frameSize_validation (v : Int) (hv : v < 0) (env : PlatformEnv)
    (h1 : env.mediaOk = true) (h2 : env.contextOk = true)
    (h3 : env.addModuleOk = true) (h4 : env.nodeOk = true)
    (h5 : env.sourceOk = true) :
    resolveBufferSize (some v) = v ∧
    resolveBufferSize (some 0) = 4096 ∧
    (streamMicrophone env ⟨some v, none⟩).2 =
      Except.ok ⟨v, env.sampleRate, env.trackCount⟩ := by
  have hv0 : v ≠ 0 := by omega
  refine ⟨by simp [resolveBufferSize, hv0], by simp [resolveBufferSize], ?_⟩
  simp [streamMicrophone, h1, h2, h3, h4, h5, resolveBufferSize, hv0,
    resolveFromDisplay]

theorem no_frameSize_validation_witness :
    resolveBufferSize (some (-7)) = -7 ∧
    resolveBufferSize (some 0) = 4096 ∧
    (streamMicrophone ⟨true, 1, 1, 48000, true, true, true, true⟩
        ⟨some (-7), none⟩).2 = Except.ok ⟨-7, 48000, 1⟩ :=
  no_frameSize_validation (-7) (by decide)
    ⟨true, 1, 1, 48000, true, true, true, true⟩ rfl rfl rfl rfl rfl

/-- C7: `options.bufferSize || 4096` — an absent or zero (falsy) buffer size
resolves to the default 4096; every other value, including a negative one, is
used unchanged. -/
theorem bufferSize_default (v : Int) (hv : v ≠ 0) :
    resolveBufferSize none = 4096 ∧
    resolveBufferSize (some 0) = 4096 ∧
    resolveBufferSize (some v) = v := by
  exact ⟨rfl, by simp [resolveBufferSize], by simp [resolveBufferSize, hv]⟩

theorem bufferSize_default_witness :
    resolveBufferSize none = 4096 ∧
    resolveBufferSize (some 0) = 4096 ∧
    resolveBufferSize (some (-3)) = -3 :=
  bufferSize_default (-3) (by decide)

/-- C8: the `stop` closure executes the teardown steps in exactly the order
disconnect worklet node → disconnect source node → close audio context →
revoke blob URL → stop every track of the device stream. -/
theorem stop_teardown_order (s : Session) :
    stopTrace s =
      [Effect.disconnectWorklet, Effect.disconnectSource, Effect.closeContext,
        Effect.revokeBlobUrl] ++ (List.range s.trackCount).map Effect.stopTrack ∧
    (∀ i, i < s.trackCount → Effect.stopTrack i ∈ stopTrace s) := by
  refine ⟨rfl, fun i hi => ?_⟩
  simp [stopTrace, hi]

theorem stop_teardown_order_witness :
    (stopTrace ⟨4096, 48000, 2⟩ =
      [Effect.disconnectWorklet, Effect.disconnectSource, Effect.closeContext,
        Effect.revokeBlobUrl] ++ (List.range 2).map Effect.stopTrack) ∧
    Effect.stopTrack 1 ∈ stopTrace ⟨4096, 48000, 2⟩ :=
  ⟨(stop_teardown_order ⟨4096, 48000, 2⟩).1,
    (stop_teardown_order ⟨4096, 48000, 2⟩).2 1 (by decide)⟩

/-- C9, counterexample: the device stream is acquired, then `addModule`
fails; `streamMicrophone` rejects having performed only the acquisition
steps — no track is stopped, nothing is released before the rejection. -/
theorem partial_release_counterexample :
    (streamMicrophone ⟨true, 1, 1, 48000, true, false, true, true⟩
        ⟨none, none⟩).2 = Except.error StartFailure.addModuleError ∧
    Effect.streamAcquired ∈
      (streamMicrophone ⟨true, 1, 1, 48000, true, false, true, true⟩
        ⟨none, none⟩).1 ∧
    Effect.stopTrack 0 ∉
      (streamMicrophone ⟨true, 1, 1, 48000, true, false, true, true⟩
        ⟨none, none⟩).1 ∧
    (streamMicrophone ⟨true, 1, 1, 48000, true, false, true, true⟩
        ⟨none, none⟩).1 =
      [Effect.requestUserMedia, Effect.streamAcquired, Effect.contextCreated,
        Effect.createBlobUrl] :=
  ⟨rfl, by decide, by decide, rfl⟩

/-- C9, amended: `streamMicrophone` has no try/catch and never releases
anything on a failure path: once the media request succeeds the stream is
acquired, and no execution of `streamMicrophone` — succeeding or failing at
any later step — ever stops a device track or closes the audio context before
returning. Already-acquired resources leak when a later start step fails. -/
theorem start_never_releases (env : PlatformEnv) (opts : Options) (i : Nat)
    (h : env.mediaOk = true) :
    Effect.streamAcquired ∈ (streamMicrophone env opts).1 ∧
    Effect.stopTrack i ∉ (streamMicrophone env opts).1 ∧
    Effect.closeContext ∉ (streamMicrophone env opts).1 := by
  obtain ⟨m, a, tc, sr, c, am, nd, so⟩ := env
  simp only at h
  subst h
  cases hd : resolveFromDisplay opts.fromDisplay <;>
    cases c <;> cases am <;> cases nd <;> cases so <;>
      simp [streamMicrophone, hd]

theorem start_never_releases_witness :
    Effect.streamAcquired ∈
      (streamMicrophone ⟨true, 1, 1, 48000, true, false, true, true⟩
        ⟨none, none⟩).1 ∧
    Effect.stopTrack 0 ∉
      (streamMicrophone ⟨true, 1, 1, 48000, true, false, true, true⟩
        ⟨none, none⟩).1 ∧
    Effect.closeContext ∉
      (streamMicrophone ⟨true, 1, 1, 48000, true, false, true, true⟩
        ⟨none, none⟩).1 :=
  start_never_releases ⟨true, 1, 1, 48000, true, false, true, true⟩
    ⟨none, none⟩ 0 rfl

/-- C10, counterexample: a display-capture start whose granted stream carries
ZERO audio tracks succeeds when the platform calls succeed — the session is
created silently; no `NoAudioTrack` (or any) error is raised. -/
theorem display_no_audio_counterexample :
    (streamMicrophone ⟨true, 0, 1, 48000, true, true, true, true⟩
        ⟨none, some true⟩).2 = Except.ok ⟨4096, 48000, 1⟩ ∧
    Effect.requestDisplayMedia ∈
      (streamMicrophone ⟨true, 0, 1, 48000, true, true, true, true⟩
        ⟨none, some true⟩).1 :=
  ⟨rfl, by decide⟩

/-- C10, amended: the code never inspects the granted stream's audio tracks.
For a display-capture session whose stream has no audio track, start does not
fail with any track-related error: whenever the platform calls themselves
succeed, it silently proceeds and returns a session. -/
theorem display_without_audio_track_proceeds (env : PlatformEnv)
    (opts : Options) (hd : resolveFromDisplay opts.fromDisplay = true)
    (_hz : env.audioTracks = 0) (h1 : env.mediaOk = true)
    (h2 : env.contextOk = true) (h3 : env.addModuleOk = true)
    (h4 : env.nodeOk = true) (h5 : env.sourceOk = true) :
    (streamMicrophone env opts).2 =
      Except.ok ⟨resolveBufferSize opts.bufferSize, env.sampleRate,
        env.trackCount⟩ ∧
    Effect.requestDisplayMedia ∈ (streamMicrophone env opts).1 := by
  simp [streamMicrophone, hd, h1, h2, h3, h4, h5]

theorem display_without_audio_track_proceeds_witness :
    (streamMicrophone ⟨true, 0, 1, 48000, true, true, true, true⟩
        ⟨none, some true⟩).2 =
      Except.ok ⟨resolveBufferSize none, 48000, 1⟩ ∧
    Effect.requestDisplayMedia ∈
      (streamMicrophone ⟨true, 0, 1, 48000, true, true, true, true⟩
        ⟨none, some true⟩).1 :=
  display_without_audio_track_proceeds
    ⟨true, 0, 1, 48000, true, true, true, true⟩ ⟨none, some true⟩
    rfl rfl rfl rfl rfl rfl rfl

end WebTranscribe
